import Mathlib

/-!
Verification development for the song-viewer audio playback core.

Shallow embedding of:
- src/src/utils/audioUtils.ts (track navigation policy, sound lifecycle helpers)
- src/src/hooks/useAudioPlayer.ts (single-track playback session)
- src/src/hooks/useMultiTrackPlayer.ts (multi-stem session, solo/mute mixing)

Modelling conventions:
- A Howl sound handle is modelled by SoundResource, carrying a numeric
  identity and the url it was created from. Side effects on resources
  (stop/unload, create, seek, mute) are recorded as an explicit event list.
- Math.random rolls are made explicit: random-dependent functions take a
  list of natural-number rolls, one per loop iteration; an index is drawn
  as roll % catalog length, mirroring Math.floor(Math.random() * length).
  An exhausted roll list models a non-terminating retry loop as none.
- number-typed playback positions and durations are modelled as Rat.
- The JS test prevIndex >= 0 on prevIndex = i - 1 becomes the test
  1 <= currentIndex on natural-number indices.
-/

/-- Mirror of AudioFileRecord (src/src/api/canciones.ts): the fields the
playback core reads. -/
structure AudioFileRecord where
  id : String
  title : String
  artist : String
  url : String
  index : Nat
deriving DecidableEq, Repr, Inhabited

/-- Mirror of AudioCatalog: an ordered list of songs. -/
structure AudioCatalog where
  songs : List AudioFileRecord
deriving DecidableEq, Repr, Inhabited

/-- Loop mode: the "single" | "all" | "none" union in AudioState. -/
inductive LoopMode where
  | none
  | single
  | all
deriving DecidableEq, Repr, Inhabited

/-- getNextTrackIndex (audioUtils.ts lines 10-16): the next index, or none
at the end of the catalog. -/
def getNextTrackIndex (currentIndex : Nat) (catalogLength : Nat) : Option Nat :=
  let nextIndex := currentIndex + 1
  if nextIndex < catalogLength then some nextIndex else Option.none

/-- getPreviousTrackIndex (audioUtils.ts lines 23-26): the previous index,
or none at the beginning. The JS code computes currentIndex - 1 and tests
>= 0; over Nat that is the test 1 <= currentIndex. -/
def getPreviousTrackIndex (currentIndex : Nat) : Option Nat :=
  if 1 ≤ currentIndex then some (currentIndex - 1) else Option.none

/-- The retry loop body of getRandomTrack (audioUtils.ts lines 42-46):
draw songs[roll % length]; while the draw has the current track id, retry
with the next roll. An exhausted roll list yields none (the JS loop would
keep drawing). -/
def getRandomTrackLoop (currentTrack : Option AudioFileRecord)
    (songs : List AudioFileRecord) : List Nat → Option AudioFileRecord
  | [] => Option.none
  | r :: rs =>
    match songs.get? (r % songs.length) with
    | Option.none => Option.none
    | some randomTrack =>
      match currentTrack with
      | some c =>
        if randomTrack.id = c.id then getRandomTrackLoop currentTrack songs rs
        else some randomTrack
      | Option.none => some randomTrack

/-- getRandomTrack (audioUtils.ts lines 34-49): a random track excluding
the current one; the sole track of a singleton catalog; none on an empty
catalog. -/
def getRandomTrack (currentTrack : Option AudioFileRecord)
    (catalog : AudioCatalog) (rolls : List Nat) : Option AudioFileRecord :=
  if catalog.songs.length = 0 then Option.none
  else if catalog.songs.length = 1 then catalog.songs.get? 0
  else getRandomTrackLoop currentTrack catalog.songs rolls

/-- getNextTrack (audioUtils.ts lines 59-86). -/
def getNextTrack (currentTrack : Option AudioFileRecord)
    (catalog : AudioCatalog) (shuffle : Bool) (loop : LoopMode)
    (rolls : List Nat) : Option AudioFileRecord :=
  match currentTrack with
  | Option.none => Option.none
  | some c =>
    if loop = LoopMode.single then some c
    else if shuffle then getRandomTrack (some c) catalog rolls
    else
      match getNextTrackIndex c.index catalog.songs.length with
      | Option.none =>
        if loop = LoopMode.all then catalog.songs.get? 0 else Option.none
      | some nextIndex => catalog.songs.get? nextIndex

/-- getPreviousTrack (audioUtils.ts lines 96-117). -/
def getPreviousTrack (currentTrack : Option AudioFileRecord)
    (catalog : AudioCatalog) (shuffle : Bool) (loop : LoopMode)
    (rolls : List Nat) : Option AudioFileRecord :=
  match currentTrack with
  | Option.none => Option.none
  | some c =>
    if loop = LoopMode.single then some c
    else if shuffle then getRandomTrack (some c) catalog rolls
    else
      match getPreviousTrackIndex c.index with
      | Option.none => Option.none
      | some prevIndex => catalog.songs.get? prevIndex

/-- A live Howl handle: its identity and the url it was created from. -/
structure SoundResource where
  resId : Nat
  url : String
deriving DecidableEq, Repr, Inhabited

/-- Observable side effects on sound resources and the navigable URL. -/
inductive AudioEvent where
  | dispose (resId : Nat)
  | create (resId : Nat) (url : String)
  | seekTo (resId : Nat) (pos : Rat)
  | setUrlTrack (trackId : String)
deriving DecidableEq, Repr

/-- Mirror of AudioState (src/src/api/canciones.ts / useAudioPlayer.ts). -/
structure AudioState where
  isPlaying : Bool
  selectedTrack : Option AudioFileRecord
  sound : Option SoundResource
  position : Rat
  duration : Rat
  loop : LoopMode
  shuffle : Bool
deriving DecidableEq, Repr

/-- The useState initial value in useAudioPlayer (lines 31-39). -/
def initialAudioState : AudioState :=
  { isPlaying := false
    selectedTrack := Option.none
    sound := Option.none
    position := 0
    duration := 0
    loop := LoopMode.none
    shuffle := false }

/-- cleanupSound (audioUtils.ts lines 185-190): stop and unload the owned
resource, recorded as one dispose event; nothing when no resource is owned. -/
def cleanupSound : Option SoundResource → List AudioEvent
  | Option.none => []
  | some s => [AudioEvent.dispose s.resId]

/-- handleTrackSelect (useAudioPlayer.ts lines 73-139): push the track id
into the URL, dispose the previous resource, create a fresh resource for
the selected track, and reset the transport fields. The fresh resource id
is passed explicitly. duration is 0 because newSound.duration() of a
not-yet-loaded Howl is 0. -/
def handleTrackSelect (track : AudioFileRecord) (fresh : Nat)
    (prev : AudioState) : AudioState × List AudioEvent :=
  let newSound : SoundResource := { resId := fresh, url := track.url }
  ({ prev with
      selectedTrack := some track
      sound := some newSound
      isPlaying := true
      position := 0
      duration := 0 },
   AudioEvent.setUrlTrack track.id ::
     (cleanupSound prev.sound ++ [AudioEvent.create fresh track.url]))

/-- The onEnd callback wired by handleTrackSelect (useAudioPlayer.ts lines
96-125), as a state transformer. track is the closure-captured track of
the createSound call. The JS callback runs handleTrackSelect for the next
track (a queued state update) when one exists, so the net effect on the
session is handleTrackSelect applied to the current state; when no next
track exists it only clears isPlaying. Without a catalog it also only
clears isPlaying. -/
def onEndUpdate (track : AudioFileRecord) (catalog : Option AudioCatalog)
    (fresh : Nat) (rolls : List Nat) (state : AudioState) :
    AudioState × List AudioEvent :=
  match catalog with
  | some cat =>
    match getNextTrack (some track) cat state.shuffle state.loop rolls with
    | some nextTrack => handleTrackSelect nextTrack fresh state
    | Option.none => ({ state with isPlaying := false }, [])
  | Option.none => ({ state with isPlaying := false }, [])

/-- playPrev (useAudioPlayer.ts lines 168-211): restart when more than 3
seconds in; otherwise navigate to the previous track, falling back to a
restart when the policy yields none. -/
def playPrev (catalog : Option AudioCatalog) (fresh : Nat)
    (rolls : List Nat) (st : AudioState) : AudioState × List AudioEvent :=
  match catalog with
  | Option.none => (st, [])
  | some cat =>
    let currentPosition := st.position
    if 3 < currentPosition then
      match st.sound, st.selectedTrack with
      | some s, some _ => ({ st with position := 0 }, [AudioEvent.seekTo s.resId 0])
      | _, _ => (st, [])
    else
      match getPreviousTrack st.selectedTrack cat st.shuffle st.loop rolls with
      | some prevTrack => handleTrackSelect prevTrack fresh st
      | Option.none =>
        match st.sound, st.selectedTrack with
        | some s, some _ => ({ st with position := 0 }, [AudioEvent.seekTo s.resId 0])
        | _, _ => (st, [])

/-- The track resolution of the one-time mount effect (useAudioPlayer.ts
lines 226-235): the track named by the URL when present in the catalog,
else the first track of the catalog. -/
def resolveTrack (catalog : AudioCatalog) (urlTrackId : Option String) :
    AudioFileRecord :=
  let firstTrack := catalog.songs.headI
  match urlTrackId with
  | Option.none => firstTrack
  | some tid =>
    match catalog.songs.find? (fun s => s.id = tid) with
    | some track => track
    | Option.none => firstTrack

/-- The one-time mount effect of useAudioPlayer (lines 216-276) combined
with createInitialAudioState (audioUtils.ts lines 198-213): when the
catalog is non-empty and no track is selected yet, resolve the track,
create its resource, and spread the partial initial state over the
previous state. The partial state carries no isPlaying field, so that
field comes from the previous state unchanged. duration is 0 because
sound.duration() of a not-yet-loaded Howl is 0. -/
def initMountEffect (catalog : AudioCatalog) (urlTrackId : Option String)
    (fresh : Nat) (prev : AudioState) : AudioState × List AudioEvent :=
  if catalog.songs.length = 0 then (prev, [])
  else
    match prev.selectedTrack with
    | some _ => (prev, [])
    | Option.none =>
      let trackToLoad := resolveTrack catalog urlTrackId
      ({ prev with
          selectedTrack := some trackToLoad
          sound := some { resId := fresh, url := trackToLoad.url }
          position := 0
          duration := 0
          loop := LoopMode.none
          shuffle := false },
       [AudioEvent.create fresh trackToLoad.url])

/-- The SoundCallbacks record (audioUtils.ts lines 122-131) as consumed by
the session: each optional callback is a state transformer. onEnd takes
the fresh resource id and the random rolls it may use at fire time. -/
structure SoundCallbacks where
  onLoad : Option (Rat → AudioState → AudioState)
  onPlay : Option (AudioState → AudioState)
  onStop : Option (AudioState → AudioState)
  onEnd : Option (Nat → List Nat → AudioState → AudioState × List AudioEvent)
  onPause : Option (AudioState → AudioState)
  onSeek : Option (Rat → AudioState → AudioState)
  onLoadError : Option (Nat → String → AudioState → AudioState)
  onPlayError : Option (Nat → String → AudioState → AudioState)

/-- The onLoad callback wired by handleTrackSelect (useAudioPlayer.ts
lines 90-95): record the reported duration. -/
def onLoadUpdate (duration : Rat) (state : AudioState) : AudioState :=
  { state with duration := duration }

/-- The callbacks object literal passed to createSound by handleTrackSelect
(useAudioPlayer.ts lines 89-126): only onLoad and onEnd are present; in
particular no onLoadError and no onPlayError handler is installed. -/
def handleTrackSelectCallbacks (track : AudioFileRecord)
    (catalog : Option AudioCatalog) : SoundCallbacks :=
  { onLoad := some onLoadUpdate
    onPlay := Option.none
    onStop := Option.none
    onEnd := some (fun fresh rolls state => onEndUpdate track catalog fresh rolls state)
    onPause := Option.none
    onSeek := Option.none
    onLoadError := Option.none
    onPlayError := Option.none }

/-- The onloaderror handler of createSound (audioUtils.ts lines 153-156):
log, then invoke the optional onLoadError callback when present. The error
is reported through this callback and never thrown; with no callback
installed the session state is untouched. -/
def fireLoadError (callbacks : SoundCallbacks) (errId : Nat) (err : String)
    (state : AudioState) : AudioState :=
  match callbacks.onLoadError with
  | Option.none => state
  | some f => f errId err state

/-- The set of live resource ids after one event. -/
def liveStep (live : List Nat) : AudioEvent → List Nat
  | AudioEvent.dispose r => live.erase r
  | AudioEvent.create r _ => live ++ [r]
  | AudioEvent.seekTo _ _ => live
  | AudioEvent.setUrlTrack _ => live

/-- Holds when at most one resource is live before, during and after the
event sequence. -/
def atMostOneLive (live : List Nat) : List AudioEvent → Bool
  | [] => decide (live.length ≤ 1)
  | e :: es => decide (live.length ≤ 1) && atMostOneLive (liveStep live e) es

/-- How many dispose events the sequence carries. -/
def countDisposeEvents (es : List AudioEvent) : Nat :=
  (es.filter (fun e =>
    match e with
    | AudioEvent.dispose _ => true
    | _ => false)).length

/-- Mirror of TrackStem (src/src/api types): the fields the multi-stem
session reads for mixing. -/
structure TrackStem where
  id : String
  name : String
  color : String
  order : Nat
  muted : Bool
  solo : Bool
deriving DecidableEq, Repr, Inhabited

/-- Mirror of TrackState (useMultiTrackPlayer.ts lines 5-12): per-stem
session entry. The sound handle is the resource id, or none. -/
structure TrackState where
  stem : TrackStem
  sound : Option Nat
  muted : Bool
  solo : Bool
  loading : Bool
  error : Option String
deriving DecidableEq, Repr, Inhabited

/-- The tracks Map of MultiTrackState, as an insertion-ordered association
list from stem id to TrackState. -/
abbrev StemMap := List (String × TrackState)

/-- getEffectiveMuteState (useMultiTrackPlayer.ts lines 63-76): with any
stem soloed, a stem is muted unless it is itself soloed and not muted;
with no stem soloed, a stem is muted exactly by its own flag. -/
def getEffectiveMuteState (trackState : TrackState) (allTracks : StemMap) : Bool :=
  let anySolo := allTracks.any (fun p => p.2.solo)
  if anySolo then !trackState.solo || trackState.muted
  else trackState.muted

/-- applyMuteStates (useMultiTrackPlayer.ts lines 81-88): for every stem
that owns a sound, the mute(effectiveMute) call it receives, recorded as
(resource id, effective mute) pairs in map order. -/
def applyMuteStates (tracks : StemMap) : List (Nat × Bool) :=
  tracks.filterMap (fun p =>
    match p.2.sound with
    | some r => some (r, getEffectiveMuteState p.2 tracks)
    | Option.none => Option.none)

/-- Map.set on an existing key of a JS Map replaces the entry in place;
a missing key is left untouched by toggleMute and toggleSolo because the
set is guarded by a successful get. -/
def stemMapUpdate (tracks : StemMap) (trackId : String)
    (f : TrackState → TrackState) : StemMap :=
  tracks.map (fun p => if p.1 = trackId then (p.1, f p.2) else p)

/-- toggleMute (useMultiTrackPlayer.ts lines 318-339): flip the muted flag
of one stem, then reapply the mixing rule to every stem. Returns the new
map and the mute calls issued. -/
def toggleMute (trackId : String) (tracks : StemMap) :
    StemMap × List (Nat × Bool) :=
  let newTracks := stemMapUpdate tracks trackId (fun t => { t with muted := !t.muted })
  (newTracks, applyMuteStates newTracks)

/-- toggleSolo (useMultiTrackPlayer.ts lines 344-365): flip the solo flag
of one stem, then reapply the mixing rule to every stem. -/
def toggleSolo (trackId : String) (tracks : StemMap) :
    StemMap × List (Nat × Bool) :=
  let newTracks := stemMapUpdate tracks trackId (fun t => { t with solo := !t.solo })
  (newTracks, applyMuteStates newTracks)

/-- Concrete track fixtures for witnesses. -/
def tA : AudioFileRecord :=
  { id := "a", title := "Title A", artist := "Artist", url := "url-a", index := 0 }

def tB : AudioFileRecord :=
  { id := "b", title := "Title B", artist := "Artist", url := "url-b", index := 1 }

def tC : AudioFileRecord :=
  { id := "c", title := "Title C", artist := "Artist", url := "url-c", index := 2 }

def cat2 : AudioCatalog := { songs := [tA, tB] }

def cat3 : AudioCatalog := { songs := [tA, tB, tC] }

/-- Exiting the retry loop of getRandomTrack requires a draw whose id
differs from the current track id. -/
theorem getRandomTrackLoop_ne_current (c t : AudioFileRecord)
    (songs : List AudioFileRecord) (rolls : List Nat)
    (h : getRandomTrackLoop (some c) songs rolls = some t) : t.id ≠ c.id := by
  induction rolls with
  | nil => simp [getRandomTrackLoop] at h
  | cons r rs ih =>
    rw [getRandomTrackLoop] at h
    cases hget : songs.get? (r % songs.length) with
    | none => rw [hget] at h; exact absurd h (by simp)
    | some rt =>
      rw [hget] at h
      dsimp only at h
      by_cases hid : rt.id = c.id
      · rw [if_pos hid] at h
        exact ih h
      · rw [if_neg hid] at h
        have hrt : rt = t := Option.some.inj h
        rw [hrt] at hid
        exact hid

/-- C4: getNextTrack implements the reference policy: none input gives
none; loop single returns the current track; shuffle delegates to
getRandomTrack; otherwise the successor index when it is in range, else
the first track under loop all and none under loop none. -/
theorem getNextTrack_policy (catalog : AudioCatalog) (shuffle : Bool)
    (loop : LoopMode) (rolls : List Nat) (c : AudioFileRecord) :
    getNextTrack Option.none catalog shuffle loop rolls = Option.none
    ∧ getNextTrack (some c) catalog shuffle LoopMode.single rolls = some c
    ∧ (loop ≠ LoopMode.single →
        getNextTrack (some c) catalog true loop rolls =
          getRandomTrack (some c) catalog rolls)
    ∧ (loop ≠ LoopMode.single → c.index + 1 < catalog.songs.length →
        getNextTrack (some c) catalog false loop rolls =
          catalog.songs.get? (c.index + 1))
    ∧ (¬ (c.index + 1 < catalog.songs.length) →
        getNextTrack (some c) catalog false LoopMode.all rolls =
          catalog.songs.get? 0)
    ∧ (¬ (c.index + 1 < catalog.songs.length) →
        getNextTrack (some c) catalog false LoopMode.none rolls = Option.none) := by
  refine ⟨rfl, rfl, ?_, ?_, ?_, ?_⟩
  · intro h
    simp [getNextTrack, h]
  · intro h h2
    simp [getNextTrack, getNextTrackIndex, h, h2]
  · intro h
    simp [getNextTrack, getNextTrackIndex, h]
  · intro h
    simp [getNextTrack, getNextTrackIndex, h]

/-- C4 witness: the policy evaluated on a two-track catalog. -/
theorem getNextTrack_policy_witness :
    (LoopMode.none ≠ LoopMode.single)
    ∧ (tA.index + 1 < cat2.songs.length)
    ∧ getNextTrack (some tA) cat2 false LoopMode.none [] =
        cat2.songs.get? (tA.index + 1)
    ∧ ¬ (tB.index + 1 < cat2.songs.length)
    ∧ getNextTrack (some tB) cat2 false LoopMode.all [] = cat2.songs.get? 0
    ∧ getNextTrack (some tB) cat2 false LoopMode.none [] = Option.none :=
  ⟨by decide, by decide,
   (getNextTrack_policy cat2 false LoopMode.none [] tA).2.2.2.1 (by decide) (by decide),
   by decide,
   (getNextTrack_policy cat2 false LoopMode.all [] tB).2.2.2.2.1 (by decide),
   (getNextTrack_policy cat2 false LoopMode.none [] tB).2.2.2.2.2 (by decide)⟩

/-- C8: getPreviousTrack is symmetric: none input gives none; loop single
returns the current track regardless of shuffle; shuffle delegates to
getRandomTrack; otherwise the predecessor index when it exists, and none
before index 0 with no loop. -/
theorem getPreviousTrack_policy (catalog : AudioCatalog) (shuffle : Bool)
    (loop : LoopMode) (rolls : List Nat) (c : AudioFileRecord) :
    getPreviousTrack Option.none catalog shuffle loop rolls = Option.none
    ∧ getPreviousTrack (some c) catalog shuffle LoopMode.single rolls = some c
    ∧ (loop ≠ LoopMode.single →
        getPreviousTrack (some c) catalog true loop rolls =
          getRandomTrack (some c) catalog rolls)
    ∧ (loop ≠ LoopMode.single → 1 ≤ c.index →
        getPreviousTrack (some c) catalog false loop rolls =
          catalog.songs.get? (c.index - 1))
    ∧ (c.index = 0 →
        getPreviousTrack (some c) catalog false LoopMode.none rolls = Option.none) := by
  refine ⟨rfl, rfl, ?_, ?_, ?_⟩
  · intro h
    simp [getPreviousTrack, h]
  · intro h h2
    simp [getPreviousTrack, getPreviousTrackIndex, h, h2]
  · intro h
    simp [getPreviousTrack, getPreviousTrackIndex, h]

/-- C8 witness: the policy evaluated on a two-track catalog. -/
theorem getPreviousTrack_policy_witness :
    getPreviousTrack (some tB) cat2 true LoopMode.single [] = some tB
    ∧ (LoopMode.none ≠ LoopMode.single)
    ∧ (1 ≤ tB.index)
    ∧ getPreviousTrack (some tB) cat2 false LoopMode.none [] =
        cat2.songs.get? (tB.index - 1)
    ∧ (tA.index = 0)
    ∧ getPreviousTrack (some tA) cat2 false LoopMode.none [] = Option.none :=
  ⟨(getPreviousTrack_policy cat2 true LoopMode.single [] tB).2.1,
   by decide, by decide,
   (getPreviousTrack_policy cat2 false LoopMode.none [] tB).2.2.2.1 (by decide) (by decide),
   by decide,
   (getPreviousTrack_policy cat2 false LoopMode.none [] tA).2.2.2.2 (by decide)⟩

/-- C9: getRandomTrack excludes the current track on catalogs of length
greater than one; a singleton catalog yields its only track; an empty
catalog yields none. -/
theorem getRandomTrack_spec :
    (∀ (catalog : AudioCatalog) (rolls : List Nat) (c t : AudioFileRecord),
       1 < catalog.songs.length →
       (catalog.songs.map (fun s => s.id)).Nodup →
       c ∈ catalog.songs →
       getRandomTrack (some c) catalog rolls = some t →
       t.id ≠ c.id)
    ∧ (∀ (catalog : AudioCatalog) (rolls : List Nat)
         (cur : Option AudioFileRecord),
       catalog.songs.length = 1 →
       getRandomTrack cur catalog rolls = catalog.songs.get? 0)
    ∧ (∀ (rolls : List Nat) (cur : Option AudioFileRecord),
       getRandomTrack cur { songs := [] } rolls = Option.none) := by
  refine ⟨?_, ?_, ?_⟩
  · intro catalog rolls c t hlen _ _ hres
    have h0 : ¬ catalog.songs.length = 0 := by omega
    have h1 : ¬ catalog.songs.length = 1 := by omega
    rw [getRandomTrack, if_neg h0, if_neg h1] at hres
    exact getRandomTrackLoop_ne_current c t catalog.songs rolls hres
  · intro catalog rolls cur h
    rw [getRandomTrack, if_neg (by omega), if_pos h]
  · intro rolls cur
    rfl

/-- C9 witness: on the two-track catalog, rolls drawing the current track
first and the other track second produce the other track. -/
theorem getRandomTrack_spec_witness :
    (1 < cat2.songs.length)
    ∧ (cat2.songs.map (fun s => s.id)).Nodup
    ∧ tA ∈ cat2.songs
    ∧ getRandomTrack (some tA) cat2 [0, 1] = some tB
    ∧ tB.id ≠ tA.id
    ∧ (AudioCatalog.mk [tA]).songs.length = 1
    ∧ getRandomTrack (some tA) { songs := [tA] } [] =
        (AudioCatalog.mk [tA]).songs.get? 0 :=
  ⟨by decide, by decide, by decide, by decide,
   getRandomTrack_spec.1 cat2 [0, 1] tA tB (by decide) (by decide) (by decide)
     (by decide),
   by decide,
   getRandomTrack_spec.2.1 { songs := [tA] } [] (some tA) (by decide)⟩

/-- C3: selecting a track while a resource is owned disposes the owned
resource exactly once, before the new resource is created, and at most one
resource is live at every point of the event sequence; the resulting
session owns exactly the fresh resource. -/
theorem handleTrackSelect_single_owner (track : AudioFileRecord) (fresh : Nat)
    (prev : AudioState) (a : SoundResource) (h : prev.sound = some a) :
    (handleTrackSelect track fresh prev).2 =
      [AudioEvent.setUrlTrack track.id, AudioEvent.dispose a.resId,
       AudioEvent.create fresh track.url]
    ∧ countDisposeEvents (handleTrackSelect track fresh prev).2 = 1
    ∧ atMostOneLive [a.resId] (handleTrackSelect track fresh prev).2 = true
    ∧ (handleTrackSelect track fresh prev).1.sound =
        some { resId := fresh, url := track.url } := by
  refine ⟨?_, ?_, ?_, ?_⟩
  · simp [handleTrackSelect, cleanupSound, h]
  · simp [handleTrackSelect, cleanupSound, h, countDisposeEvents]
  · simp [handleTrackSelect, cleanupSound, h, atMostOneLive, liveStep]
  · simp [handleTrackSelect]

/-- C3 witness: selecting track B while track A owns resource 5. -/
theorem handleTrackSelect_single_owner_witness :
    ((handleTrackSelect tA 7 initialAudioState).1.sound =
        some { resId := 7, url := "url-a" })
    ∧ (handleTrackSelect tB 8 (handleTrackSelect tA 7 initialAudioState).1).2 =
        [AudioEvent.setUrlTrack "b", AudioEvent.dispose 7,
         AudioEvent.create 8 "url-b"]
    ∧ countDisposeEvents
        (handleTrackSelect tB 8 (handleTrackSelect tA 7 initialAudioState).1).2 = 1
    ∧ atMostOneLive [7]
        (handleTrackSelect tB 8 (handleTrackSelect tA 7 initialAudioState).1).2 = true :=
  ⟨rfl,
   (handleTrackSelect_single_owner tB 8 (handleTrackSelect tA 7 initialAudioState).1
      { resId := 7, url := "url-a" } rfl).1,
   (handleTrackSelect_single_owner tB 8 (handleTrackSelect tA 7 initialAudioState).1
      { resId := 7, url := "url-a" } rfl).2.1,
   (handleTrackSelect_single_owner tB 8 (handleTrackSelect tA 7 initialAudioState).1
      { resId := 7, url := "url-a" } rfl).2.2.1⟩

/-- A session state in loop-single mode owning resource 5 on track A. -/
def stSingleEx : AudioState :=
  { isPlaying := true
    selectedTrack := some tA
    sound := some { resId := 5, url := "url-a" }
    position := 2
    duration := 30
    loop := LoopMode.single
    shuffle := false }

/-- C1 counterexample: in loop-single mode the end callback does not seek
the owned resource; it disposes resource 5 and creates a fresh resource 6
for the same track, refuting the no-disposal and no-new-resource parts of
the claim. -/
theorem onEnd_single_counterexample :
    (onEndUpdate tA (some cat2) 6 [] stSingleEx).2 =
      [AudioEvent.setUrlTrack "a", AudioEvent.dispose 5,
       AudioEvent.create 6 "url-a"]
    ∧ countDisposeEvents (onEndUpdate tA (some cat2) 6 [] stSingleEx).2 ≠ 0
    ∧ (onEndUpdate tA (some cat2) 6 [] stSingleEx).1.sound ≠
        some { resId := 5, url := "url-a" }
    ∧ ¬ ((onEndUpdate tA (some cat2) 6 [] stSingleEx).2 = []) := by
  refine ⟨rfl, by decide, by decide, by decide⟩

/-- C1 amended: in loop-single mode the end callback re-selects the same
track through handleTrackSelect: the selected track is unchanged, but the
owned resource is disposed and a fresh resource is created for the same
track (replay by re-selection, not by seeking the existing resource). -/
theorem onEnd_single_reselects (track : AudioFileRecord) (cat : AudioCatalog)
    (fresh : Nat) (rolls : List Nat) (state : AudioState) (a : SoundResource)
    (hloop : state.loop = LoopMode.single) (hsound : state.sound = some a) :
    onEndUpdate track (some cat) fresh rolls state =
      handleTrackSelect track fresh state
    ∧ (onEndUpdate track (some cat) fresh rolls state).1.selectedTrack = some track
    ∧ (onEndUpdate track (some cat) fresh rolls state).2 =
        [AudioEvent.setUrlTrack track.id, AudioEvent.dispose a.resId,
         AudioEvent.create fresh track.url] := by
  have h1 : getNextTrack (some track) cat state.shuffle state.loop rolls =
      some track := by
    simp [getNextTrack, hloop]
  refine ⟨?_, ?_, ?_⟩ <;>
    simp [onEndUpdate, h1, handleTrackSelect, cleanupSound, hsound]

/-- C1 amended witness: the loop-single end callback on the concrete state. -/
theorem onEnd_single_reselects_witness :
    (stSingleEx.loop = LoopMode.single)
    ∧ (stSingleEx.sound = some { resId := 5, url := "url-a" })
    ∧ onEndUpdate tA (some cat2) 6 [] stSingleEx =
        handleTrackSelect tA 6 stSingleEx
    ∧ (onEndUpdate tA (some cat2) 6 [] stSingleEx).1.selectedTrack = some tA :=
  ⟨rfl, rfl,
   (onEnd_single_reselects tA cat2 6 [] stSingleEx
      { resId := 5, url := "url-a" } rfl rfl).1,
   (onEnd_single_reselects tA cat2 6 [] stSingleEx
      { resId := 5, url := "url-a" } rfl rfl).2.1⟩

/-- C7: when the last track ends under loop none without shuffle, the end
callback clears isPlaying and changes nothing else: no event is emitted,
the resource is retained, and selectedTrack, position and duration still
reflect the finished track. -/
theorem onEnd_lastTrack_stops (track : AudioFileRecord) (cat : AudioCatalog)
    (fresh : Nat) (rolls : List Nat) (state : AudioState)
    (hloop : state.loop = LoopMode.none) (hshuffle : state.shuffle = false)
    (hlast : cat.songs.length ≤ track.index + 1) :
    onEndUpdate track (some cat) fresh rolls state =
      ({ state with isPlaying := false }, [])
    ∧ (onEndUpdate track (some cat) fresh rolls state).1.isPlaying = false
    ∧ (onEndUpdate track (some cat) fresh rolls state).1.sound = state.sound
    ∧ (onEndUpdate track (some cat) fresh rolls state).1.selectedTrack =
        state.selectedTrack
    ∧ (onEndUpdate track (some cat) fresh rolls state).1.position = state.position
    ∧ (onEndUpdate track (some cat) fresh rolls state).1.duration = state.duration
    ∧ (onEndUpdate track (some cat) fresh rolls state).2 = [] := by
  have h1 : getNextTrack (some track) cat state.shuffle state.loop rolls =
      Option.none := by
    simp [getNextTrack, getNextTrackIndex, hloop, hshuffle, Nat.not_lt.mpr hlast]
  refine ⟨?_, ?_, ?_, ?_, ?_, ?_, ?_⟩ <;> simp [onEndUpdate, h1]

/-- A session state playing the last track of the two-track catalog. -/
def stLastEx : AudioState :=
  { isPlaying := true
    selectedTrack := some tB
    sound := some { resId := 9, url := "url-b" }
    position := 29
    duration := 30
    loop := LoopMode.none
    shuffle := false }

/-- C7 witness: the end of track B on the two-track catalog. -/
theorem onEnd_lastTrack_stops_witness :
    (stLastEx.loop = LoopMode.none)
    ∧ (stLastEx.shuffle = false)
    ∧ (cat2.songs.length ≤ tB.index + 1)
    ∧ onEndUpdate tB (some cat2) 6 [] stLastEx =
        ({ stLastEx with isPlaying := false }, [])
    ∧ (onEndUpdate tB (some cat2) 6 [] stLastEx).1.sound = stLastEx.sound :=
  ⟨rfl, rfl, by decide,
   (onEnd_lastTrack_stops tB cat2 6 [] stLastEx rfl rfl (by decide)).1,
   (onEnd_lastTrack_stops tB cat2 6 [] stLastEx rfl rfl (by decide)).2.2.1⟩

/-- C6: playPrev obeys the 3-second policy: past 3 seconds the owned
resource is seeked to 0 with no track change; at or before 3 seconds the
session moves to the previous track when the policy yields one, and
restarts the current track by seeking to 0 when the policy yields none. -/
theorem playPrev_policy (cat : AudioCatalog) (fresh : Nat) (rolls : List Nat)
    (st : AudioState) (s : SoundResource) (t : AudioFileRecord)
    (hs : st.sound = some s) (ht : st.selectedTrack = some t) :
    (3 < st.position →
       playPrev (some cat) fresh rolls st =
         ({ st with position := 0 }, [AudioEvent.seekTo s.resId 0]))
    ∧ (¬ (3 < st.position) →
       ∀ p, getPreviousTrack st.selectedTrack cat st.shuffle st.loop rolls = some p →
       playPrev (some cat) fresh rolls st = handleTrackSelect p fresh st)
    ∧ (¬ (3 < st.position) →
       getPreviousTrack st.selectedTrack cat st.shuffle st.loop rolls = Option.none →
       playPrev (some cat) fresh rolls st =
         ({ st with position := 0 }, [AudioEvent.seekTo s.resId 0])) := by
  refine ⟨?_, ?_, ?_⟩
  · intro hpos
    simp [playPrev, hpos, hs, ht]
  · intro hpos p hprev
    simp [playPrev, hpos, hprev]
  · intro hpos hprev
    rw [ht] at hprev
    simp [playPrev, hpos, hprev, hs, ht]

/-- A session state 10 seconds into track B. -/
def stDeepEx : AudioState :=
  { isPlaying := true
    selectedTrack := some tB
    sound := some { resId := 3, url := "url-b" }
    position := 10
    duration := 30
    loop := LoopMode.none
    shuffle := false }

/-- A session state 1.5 seconds into track A, the first track, loop none. -/
def stEarlyEx : AudioState :=
  { isPlaying := true
    selectedTrack := some tA
    sound := some { resId := 4, url := "url-a" }
    position := 3 / 2
    duration := 30
    loop := LoopMode.none
    shuffle := false }

/-- C6 witness: at position 10 the resource is seeked to 0 with no track
change; at position 1.5 on the first track with loop none the policy
yields none and the current track restarts. -/
theorem playPrev_policy_witness :
    (stDeepEx.sound = some { resId := 3, url := "url-b" })
    ∧ ((3 : Rat) < stDeepEx.position)
    ∧ playPrev (some cat2) 11 [] stDeepEx =
        ({ stDeepEx with position := 0 }, [AudioEvent.seekTo 3 0])
    ∧ ¬ ((3 : Rat) < stEarlyEx.position)
    ∧ getPreviousTrack stEarlyEx.selectedTrack cat2 stEarlyEx.shuffle
        stEarlyEx.loop [] = Option.none
    ∧ playPrev (some cat2) 11 [] stEarlyEx =
        ({ stEarlyEx with position := 0 }, [AudioEvent.seekTo 4 0]) :=
  ⟨rfl, by norm_num [stDeepEx],
   (playPrev_policy cat2 11 [] stDeepEx { resId := 3, url := "url-b" } tB
      rfl rfl).1 (by norm_num [stDeepEx]),
   by norm_num [stEarlyEx], by decide,
   (playPrev_policy cat2 11 [] stEarlyEx { resId := 4, url := "url-a" } tA
      rfl rfl).2.2 (by norm_num [stEarlyEx]) (by decide)⟩

/-- C5 counterexample: a session whose selected track fails to load stays
wedged: the load-error event leaves the state untouched, so isPlaying
remains true and the failed track remains selected, refuting the claim
that auto-advance skips the failed track. -/
theorem loadError_counterexample :
    fireLoadError (handleTrackSelectCallbacks tA (some cat2)) 1 "network"
        (handleTrackSelect tA 7 initialAudioState).1 =
      (handleTrackSelect tA 7 initialAudioState).1
    ∧ (handleTrackSelect tA 7 initialAudioState).1.isPlaying = true
    ∧ (handleTrackSelect tA 7 initialAudioState).1.selectedTrack = some tA
    ∧ ¬ ((fireLoadError (handleTrackSelectCallbacks tA (some cat2)) 1 "network"
            (handleTrackSelect tA 7 initialAudioState).1).selectedTrack ≠ some tA) :=
  ⟨rfl, rfl, rfl, fun hne => hne rfl⟩

/-- C5 amended: the sound wrapper reports a load error through an optional
callback and never throws, but the session installs no onLoadError or
onPlayError handler, so a load error leaves the session state unchanged:
the failed track is not marked errored and auto-advance does not skip it. -/
theorem loadError_leaves_state (track : AudioFileRecord)
    (catalog : Option AudioCatalog) (errId : Nat) (err : String)
    (state : AudioState) :
    (handleTrackSelectCallbacks track catalog).onLoadError = Option.none
    ∧ (handleTrackSelectCallbacks track catalog).onPlayError = Option.none
    ∧ (handleTrackSelectCallbacks track catalog).onLoad = some onLoadUpdate
    ∧ fireLoadError (handleTrackSelectCallbacks track catalog) errId err state =
        state :=
  ⟨rfl, rfl, rfl, rfl⟩

/-- Every stem owning a resource receives its effective mute from
applyMuteStates. -/
theorem applyMuteStates_covers (tracks : StemMap) (p : String × TrackState)
    (hp : p ∈ tracks) (r : Nat) (hr : p.2.sound = some r) :
    (r, getEffectiveMuteState p.2 tracks) ∈ applyMuteStates tracks :=
  List.mem_filterMap.mpr ⟨p, hp, by simp [hr]⟩

/-- C2: the effective mute rule: with any stem soloed a stem is muted
exactly when it is not soloed or is itself explicitly muted; with no stem
soloed a stem is muted exactly by its own flag. Both toggles recompute the
rule on the post-toggle map and apply it to every stem owning a resource. -/
theorem effectiveMute_rule (ts : TrackState) (m : StemMap) (trackId : String) :
    ((∃ p ∈ m, p.2.solo = true) →
       getEffectiveMuteState ts m = (!ts.solo || ts.muted))
    ∧ ((∀ p ∈ m, p.2.solo = false) →
       getEffectiveMuteState ts m = ts.muted)
    ∧ (toggleMute trackId m).2 = applyMuteStates (toggleMute trackId m).1
    ∧ (toggleSolo trackId m).2 = applyMuteStates (toggleSolo trackId m).1
    ∧ (∀ p ∈ (toggleMute trackId m).1, ∀ r, p.2.sound = some r →
        (r, getEffectiveMuteState p.2 (toggleMute trackId m).1) ∈
          (toggleMute trackId m).2)
    ∧ (∀ p ∈ (toggleSolo trackId m).1, ∀ r, p.2.sound = some r →
        (r, getEffectiveMuteState p.2 (toggleSolo trackId m).1) ∈
          (toggleSolo trackId m).2) := by
  refine ⟨?_, ?_, rfl, rfl, ?_, ?_⟩
  · intro h
    have hany : m.any (fun p => p.2.solo) = true := by
      rw [List.any_eq_true]
      obtain ⟨p, hp, hsolo⟩ := h
      exact ⟨p, hp, hsolo⟩
    simp [getEffectiveMuteState, hany]
  · intro h
    have hany : m.any (fun p => p.2.solo) = false := by
      rw [List.any_eq_false]
      intro p hp
      simp [h p hp]
    simp [getEffectiveMuteState, hany]
  · intro p hp r hr
    exact applyMuteStates_covers (toggleMute trackId m).1 p hp r hr
  · intro p hp r hr
    exact applyMuteStates_covers (toggleSolo trackId m).1 p hp r hr

/-- Stem fixture A: not muted, not soloed, owning resource 20. -/
def stemStateA : TrackState :=
  { stem := { id := "A", name := "Guitar", color := "red", order := 0,
              muted := false, solo := false }
    sound := some 20
    muted := false
    solo := false
    loading := false
    error := Option.none }

/-- Stem fixture B: not muted, soloed, owning resource 21. -/
def stemStateB : TrackState :=
  { stem := { id := "B", name := "Voice", color := "blue", order := 1,
              muted := false, solo := true }
    sound := some 21
    muted := false
    solo := true
    loading := false
    error := Option.none }

/-- The stem map of the solo-invariant example of the specification. -/
def stemMapAB : StemMap := [("A", stemStateA), ("B", stemStateB)]

/-- C2 witness: on the map with B soloed, A is effectively muted and B
audible; toggling the solo of B off restores both audible; each toggle
reapplies the rule to every stem resource. -/
theorem effectiveMute_rule_witness :
    (∃ p ∈ stemMapAB, p.2.solo = true)
    ∧ getEffectiveMuteState stemStateA stemMapAB = (!stemStateA.solo || stemStateA.muted)
    ∧ getEffectiveMuteState stemStateA stemMapAB = true
    ∧ getEffectiveMuteState stemStateB stemMapAB = false
    ∧ (toggleSolo "B" stemMapAB).2 = applyMuteStates (toggleSolo "B" stemMapAB).1
    ∧ (toggleSolo "B" stemMapAB).2 = [(20, false), (21, false)]
    ∧ (stemStateA.sound = some 20)
    ∧ (("A", stemStateA) ∈ (toggleSolo "B" stemMapAB).1 →
        (20, getEffectiveMuteState stemStateA (toggleSolo "B" stemMapAB).1) ∈
          (toggleSolo "B" stemMapAB).2) :=
  ⟨⟨("B", stemStateB), by decide, rfl⟩,
   (effectiveMute_rule stemStateA stemMapAB "B").1
     ⟨("B", stemStateB), by decide, rfl⟩,
   by decide, by decide,
   (effectiveMute_rule stemStateA stemMapAB "B").2.2.2.1,
   by decide, rfl,
   fun hmem =>
     (effectiveMute_rule stemStateA stemMapAB "B").2.2.2.2.2
       ("A", stemStateA) hmem 20 rfl⟩

/-- C10: the one-time mount initialization of a non-empty catalog, whether
resolving the URL track id or defaulting to the first track, sets the
selected track, the resource, position and duration, and leaves isPlaying
exactly as it was; from the initial state it therefore stays false. In
contrast handleTrackSelect is what sets isPlaying to true. -/
theorem initMount_no_autoplay (catalog : AudioCatalog)
    (urlTrackId : Option String) (fresh : Nat) (prev : AudioState)
    (hne : catalog.songs.length ≠ 0) (hsel : prev.selectedTrack = Option.none) :
    (initMountEffect catalog urlTrackId fresh prev).1.isPlaying = prev.isPlaying
    ∧ (initMountEffect catalog urlTrackId fresh prev).1.selectedTrack =
        some (resolveTrack catalog urlTrackId)
    ∧ (initMountEffect catalog urlTrackId fresh prev).1.sound =
        some { resId := fresh, url := (resolveTrack catalog urlTrackId).url }
    ∧ (initMountEffect catalog urlTrackId fresh prev).1.position = 0
    ∧ (initMountEffect catalog urlTrackId fresh prev).1.duration = 0
    ∧ (initMountEffect catalog urlTrackId fresh initialAudioState).1.isPlaying = false
    ∧ (handleTrackSelect (resolveTrack catalog urlTrackId) fresh prev).1.isPlaying =
        true := by
  refine ⟨?_, ?_, ?_, ?_, ?_, ?_, ?_⟩ <;>
    simp [initMountEffect, hne, hsel, initialAudioState, handleTrackSelect]

/-- C10 witness: initialization on the two-track catalog with a URL naming
track B selects track B and leaves isPlaying false. -/
theorem initMount_no_autoplay_witness :
    (cat2.songs.length ≠ 0)
    ∧ (initialAudioState.selectedTrack = Option.none)
    ∧ (initMountEffect cat2 (some "b") 12 initialAudioState).1.isPlaying =
        initialAudioState.isPlaying
    ∧ (initMountEffect cat2 (some "b") 12 initialAudioState).1.selectedTrack =
        some (resolveTrack cat2 (some "b"))
    ∧ resolveTrack cat2 (some "b") = tB
    ∧ (initMountEffect cat2 Option.none 12 initialAudioState).1.selectedTrack =
        some tA
    ∧ (initMountEffect cat2 (some "b") 12 initialAudioState).1.isPlaying = false :=
  ⟨by decide, rfl,
   (initMount_no_autoplay cat2 (some "b") 12 initialAudioState (by decide) rfl).1,
   (initMount_no_autoplay cat2 (some "b") 12 initialAudioState (by decide) rfl).2.1,
   by decide, by decide,
   (initMount_no_autoplay cat2 (some "b") 12 initialAudioState (by decide) rfl).2.2.2.2.2.1⟩
